import Mathlib

/-!
Verification development for the GeoMosaic geospatial metadata pipeline.

The Python sources embedded here are `src/geomosaic/backend.py` (preview
metadata derivation, zoom suggestion, tile-layout discovery, tiling-step
validation) and `src/geotiff_tool.py` (georeference extraction and
injection).  Python floats are modelled as exact rationals, GDAL datasets
as explicit record states, and the filesystem as a partial map from path
strings to file contents.
-/

namespace GeoMosaic

/-- A GDAL-style affine geotransform: the six coefficients
`(t0, t1, t2, t3, t4, t5)` mapping pixel/line coordinates to projected
map coordinates (`x = t0 + px*t1 + py*t2`, `y = t3 + px*t4 + py*t5`). -/
structure GeoTransform where
  t0 : ℚ
  t1 : ℚ
  t2 : ℚ
  t3 : ℚ
  t4 : ℚ
  t5 : ℚ
  deriving DecidableEq, Repr

/-- Web-Mercator base resolution in meters/pixel at the equator, the
constant `156543.03392804097` in `_suggest_max_zoom_from_3857_gt`. -/
def webMercatorBaseRes : ℚ := 156543.03392804097

/-- Pixel resolution read from a geotransform: `res = abs(float(gt[1]))`
in `_suggest_max_zoom_from_3857_gt` (backend.py line 367). -/
def pixelRes (gt : GeoTransform) : ℚ := |gt.t1|

/-- Embedding of `_suggest_max_zoom_from_3857_gt` (backend.py lines
363-374).  The Python code computes `z = math.log2(base / res)` and
returns `int(max(0, min(22, math.ceil(z))))`; with exact rational
arithmetic, `ceil (log2 q)` is `Int.clog 2 q`.  A non-positive resolution
returns `None` (the guard `if not (res > 0)`); the surrounding
`try/except` that also returns `None` on malformed input is outside this
total model. -/
def _suggest_max_zoom_from_3857_gt (gt : GeoTransform) : Option ℤ :=
  if 0 < pixelRes gt then
    some (max 0 (min 22 (Int.clog 2 (webMercatorBaseRes / pixelRes gt))))
  else
    none

/-- Embedding of the defensive axis-order correction inside
`_compute_preview_info` (backend.py lines 332-338).  The transformed pair
`(a, b)` from `ct.TransformPoint` is bound as `lon = a`, `lat = b`, and
the code swaps them when `abs(lat) > 90 and abs(lon) <= 90`, i.e. when
the magnitude of the second component exceeds 90 while the magnitude of
the first does not. -/
def axis_order_fixup (p : ℚ × ℚ) : ℚ × ℚ :=
  if 90 < |p.2| ∧ |p.1| ≤ 90 then (p.2, p.1) else p

/-- Observable effects of `generate_xyz_tiles` after its zoom-range
validation: creating the output directory, then invoking gdal2tiles with
the formatted `min-max` zoom argument. -/
inductive TilesEffect where
  | mkdirOutDir : TilesEffect
  | runGdal2Tiles (zoomArg : String) : TilesEffect
  deriving DecidableEq, Repr

/-- Error message raised by the zoom-range validation in
`generate_xyz_tiles` (backend.py line 387). -/
def zoomRangeErrorMsg : String := "Zoom 范围不合法：min_zoom/max_zoom"

/-- Embedding of `generate_xyz_tiles` (backend.py lines 377-413) reduced
to its control flow: the zoom-range check raises `ValueError` before
`out_dir.mkdir` and before the gdal2tiles invocation; otherwise the
directory is created and the tool runs with zoom argument
`f"{min_zoom}-{max_zoom}"`. -/
def generate_xyz_tiles (min_zoom max_zoom : ℤ) : Except String (List TilesEffect) :=
  if min_zoom < 0 ∨ max_zoom < 0 ∨ max_zoom < min_zoom then
    Except.error zoomRangeErrorMsg
  else
    Except.ok [TilesEffect.mkdirOutDir,
      TilesEffect.runGdal2Tiles (toString min_zoom ++ "-" ++ toString max_zoom)]

example : axis_order_fixup (50, 100) = (100, 50) := by decide
example : axis_order_fixup (100, 50) = (100, 50) := by decide
example : generate_xyz_tiles (-1) 3 = Except.error zoomRangeErrorMsg := rfl

/-- Casting a rational into the reals preserves `Int.clog` (base 2). -/
theorem intClog_two_ratCast (q : ℚ) : Int.clog 2 ((q : ℝ)) = Int.clog 2 q := by
  rcases le_or_lt 1 q with h | h
  · have hr : (1 : ℝ) ≤ (q : ℝ) := by exact_mod_cast h
    rw [Int.clog_of_one_le_right _ h, Int.clog_of_one_le_right _ hr,
      ← Int.ceil_toNat ((q : ℝ)), ← Int.ceil_toNat q, Rat.ceil_cast]
  · have hr : (q : ℝ) ≤ 1 := by exact_mod_cast h.le
    rw [Int.clog_of_right_le_one _ h.le, Int.clog_of_right_le_one _ hr,
      ← Rat.cast_inv, ← Int.floor_toNat (((q⁻¹ : ℚ) : ℝ)), ← Int.floor_toNat (q⁻¹ : ℚ),
      Rat.floor_cast]

/-- For a nonneg rational argument, the ceiling of the real base-2 logarithm
agrees with the exact rational computation `Int.clog 2`. -/
theorem ceil_logb_two_ratCast (q : ℚ) (hq : 0 ≤ q) :
    ⌈Real.logb 2 ((q : ℝ))⌉ = Int.clog 2 q := by
  have hb : ((2 : ℕ) : ℝ) = (2 : ℝ) := by norm_num
  have h := Real.ceil_logb_natCast (b := 2) (r := ((q : ℝ))) (by exact_mod_cast hq)
  rw [hb] at h
  rw [h, intClog_two_ratCast]

/-- Concrete evaluation of the exact ceiling logarithm at pixel
resolution 10, the scenario from the spec. -/
theorem intClog_base_div_ten : Int.clog 2 (webMercatorBaseRes / 10) = 14 := by
  have hq : (0 : ℚ) < webMercatorBaseRes / 10 := by norm_num [webMercatorBaseRes]
  have hub : Int.clog 2 (webMercatorBaseRes / 10) ≤ 14 := by
    rw [← Int.le_zpow_iff_clog_le (by norm_num) hq]
    norm_num [webMercatorBaseRes]
  have hlb : (13 : ℤ) < Int.clog 2 (webMercatorBaseRes / 10) := by
    rw [← Int.zpow_lt_iff_lt_clog (by norm_num) hq]
    norm_num [webMercatorBaseRes]
  omega

/-- Evaluation of the zoom suggestion at pixel resolution `base / 2`
(78271.516964020485 meters/pixel), which suggests zoom 1. -/
theorem suggest_eval_half_base :
    _suggest_max_zoom_from_3857_gt ⟨0, 78271.516964020485, 0, 0, 0, 0⟩ = some 1 := by
  have hres : pixelRes ⟨0, 78271.516964020485, 0, 0, 0, 0⟩ = 78271.516964020485 := by
    norm_num [pixelRes]
  have hdiv : webMercatorBaseRes / (78271.516964020485 : ℚ) = ((2 : ℕ) : ℚ) ^ (1 : ℤ) := by
    push_cast
    norm_num [webMercatorBaseRes]
  simp only [_suggest_max_zoom_from_3857_gt, hres]
  rw [if_pos (by norm_num), hdiv, Int.clog_zpow (by norm_num)]
  decide

/-- Evaluation of the zoom suggestion at pixel resolution equal to the
Web-Mercator base resolution, which suggests zoom 0. -/
theorem suggest_eval_base :
    _suggest_max_zoom_from_3857_gt ⟨0, 156543.03392804097, 0, 0, 0, 0⟩ = some 0 := by
  have hres : pixelRes ⟨0, 156543.03392804097, 0, 0, 0, 0⟩ = 156543.03392804097 := by
    norm_num [pixelRes]
  have hdiv : webMercatorBaseRes / (156543.03392804097 : ℚ) = ((2 : ℕ) : ℚ) ^ (0 : ℤ) := by
    push_cast
    norm_num [webMercatorBaseRes]
  simp only [_suggest_max_zoom_from_3857_gt, hres]
  rw [if_pos (by norm_num), hdiv, Int.clog_zpow (by norm_num)]
  decide

/-- Claim C3: for every geotransform whose pixel resolution `r` is
strictly positive, the suggested max zoom is
`ceil (log2 (156543.03392804097 / r))` clamped to `[0, 22]`; and for the
transform `[399960, 10, 0, 4700040, 0, -10]` (pixel resolution 10) the
suggestion is 14. -/
theorem suggested_zoom_is_clamped_ceil_log2 (gt : GeoTransform) (h : 0 < pixelRes gt) :
    _suggest_max_zoom_from_3857_gt gt =
      some (max 0 (min 22 ⌈Real.logb 2 ((156543.03392804097 : ℝ) / ((pixelRes gt : ℚ) : ℝ))⌉)) ∧
    _suggest_max_zoom_from_3857_gt ⟨399960, 10, 0, 4700040, 0, -10⟩ = some 14 := by
  constructor
  · have hcast : (156543.03392804097 : ℝ) / ((pixelRes gt : ℚ) : ℝ)
        = ((webMercatorBaseRes / pixelRes gt : ℚ) : ℝ) := by
      rw [Rat.cast_div]
      norm_num [webMercatorBaseRes]
    rw [hcast,
      ceil_logb_two_ratCast _ (le_of_lt (div_pos (by norm_num [webMercatorBaseRes]) h))]
    simp only [_suggest_max_zoom_from_3857_gt, if_pos h]
  · have hres : pixelRes ⟨399960, 10, 0, 4700040, 0, -10⟩ = 10 := by norm_num [pixelRes]
    simp only [_suggest_max_zoom_from_3857_gt, hres]
    rw [if_pos (by norm_num), intClog_base_div_ten]
    decide

/-- Witness for C3: the concrete raster scenario from the spec, with
geotransform `[399960, 10, 0, 4700040, 0, -10]` and pixel resolution 10,
is suggested max zoom 14. -/
theorem suggested_zoom_is_clamped_ceil_log2_witness :
    _suggest_max_zoom_from_3857_gt ⟨399960, 10, 0, 4700040, 0, -10⟩ = some 14 :=
  (suggested_zoom_is_clamped_ceil_log2 ⟨399960, 10, 0, 4700040, 0, -10⟩ (by decide)).2

/-- Claim C7: the zoom suggestion is antitone in the pixel resolution,
and any value it produces lies in `[0, 22]`. -/
theorem suggested_zoom_antitone_and_bounded (gt1 gt2 : GeoTransform) (z1 z2 : ℤ)
    (h1 : 0 < pixelRes gt1) (h12 : pixelRes gt1 < pixelRes gt2)
    (e1 : _suggest_max_zoom_from_3857_gt gt1 = some z1)
    (e2 : _suggest_max_zoom_from_3857_gt gt2 = some z2) :
    z2 ≤ z1 ∧ 0 ≤ z1 ∧ z1 ≤ 22 ∧ 0 ≤ z2 ∧ z2 ≤ 22 := by
  have h2 : 0 < pixelRes gt2 := h1.trans h12
  have hBpos : (0 : ℚ) < webMercatorBaseRes := by norm_num [webMercatorBaseRes]
  simp only [_suggest_max_zoom_from_3857_gt, if_pos h1, Option.some.injEq] at e1
  simp only [_suggest_max_zoom_from_3857_gt, if_pos h2, Option.some.injEq] at e2
  subst e1
  subst e2
  have hd : webMercatorBaseRes / pixelRes gt2 ≤ webMercatorBaseRes / pixelRes gt1 :=
    div_le_div_of_nonneg_left hBpos.le h1 h12.le
  have hclog : Int.clog 2 (webMercatorBaseRes / pixelRes gt2)
      ≤ Int.clog 2 (webMercatorBaseRes / pixelRes gt1) :=
    Int.clog_mono_right (div_pos hBpos h2) hd
  refine ⟨max_le_max le_rfl (min_le_min le_rfl hclog), le_max_left _ _,
    max_le (by norm_num) (min_le_left _ _), le_max_left _ _,
    max_le (by norm_num) (min_le_left _ _)⟩

/-- Witness for C7: pixel resolutions `base/2 < base` give suggestions
`1 ≥ 0`, both within bounds. -/
theorem suggested_zoom_antitone_and_bounded_witness :
    (0 : ℤ) ≤ 1 ∧ 0 ≤ (1 : ℤ) ∧ (1 : ℤ) ≤ 22 ∧ 0 ≤ (0 : ℤ) ∧ (0 : ℤ) ≤ 22 :=
  suggested_zoom_antitone_and_bounded
    ⟨0, 78271.516964020485, 0, 0, 0, 0⟩ ⟨0, 156543.03392804097, 0, 0, 0, 0⟩ 1 0
    (by norm_num [pixelRes, abs_of_pos]) (by norm_num [pixelRes, abs_of_pos])
    suggest_eval_half_base suggest_eval_base

/-- Claim C8: a geotransform whose pixel resolution (the absolute value
of the second coefficient, as computed by the code) is not strictly
positive yields an absent zoom suggestion; the embedding is total, so no
exception can be raised. -/
theorem suggested_zoom_nonpositive_res_absent (gt : GeoTransform) (h : pixelRes gt ≤ 0) :
    _suggest_max_zoom_from_3857_gt gt = none := by
  simp only [_suggest_max_zoom_from_3857_gt, if_neg (not_lt.mpr h)]

/-- Witness for C8: the degenerate geotransform with zero pixel width has
no zoom suggestion. -/
theorem suggested_zoom_nonpositive_res_absent_witness :
    _suggest_max_zoom_from_3857_gt ⟨0, 0, 0, 0, 0, 0⟩ = none :=
  suggested_zoom_nonpositive_res_absent ⟨0, 0, 0, 0, 0, 0⟩ (by decide)

/-- A ground control point as read from GDAL (`gcp.Id`, `gcp.Info`,
`gcp.GCPPixel`, `gcp.GCPLine`, `gcp.GCPX`, `gcp.GCPY`, `gcp.GCPZ`).  The
injector rebuilds each one with
`gdal.GCP(float(x), float(y), float(z), float(pixel), float(line),
str(id), str(info))`, which stores exactly the same seven fields. -/
structure GCP where
  id : String
  info : String
  pixel : ℚ
  line : ℚ
  x : ℚ
  y : ℚ
  z : ℚ
  deriving DecidableEq, Repr

/-- Free-form string-to-string metadata mapping. -/
abbrev Metadata : Type := List (String × String)

/-- The interchange record, i.e. the JSON dictionary built by
`_extract_georef_data` and consumed by `_apply_georef_from_json`
(geotiff_tool.py).  `format` is an `Option` because `data.get("format")`
is `None` when the key is absent.  In the interchange format the
geotransform is either `null` or a 6-element list, and
`projection_wkt` / `gcp_projection_wkt` / `gcps` / `metadata` model the
values after the coalescing steps `or ""` and `or []` of the injector (a
missing or `null` entry behaves as the empty value). -/
structure GeorefData where
  format : Option String
  source_file : String
  raster_size : ℤ × ℤ
  geotransform : Option GeoTransform
  projection_wkt : String
  gcp_projection_wkt : String
  gcps : List GCP
  metadata : Metadata
  deriving DecidableEq

/-- The fixed interchange identifier checked by the injector and written
by the extractor. -/
def georefFormatTag : String := "geomosaic_georef_v1"

/-- A GDAL raster dataset state: size, georeferencing, metadata and the
(opaque) pixel payload.  `GetGeoTransform(can_return_null=True)` returns
`None` exactly when `geotransform` is `none`; `GetProjection`,
`GetGCPProjection` return `""` and `GetGCPs` returns `[]` when the raster
reports none (so the `or ""` / `or []` coalescing in the Python code is
the identity on this model). -/
structure Raster where
  xSize : ℤ
  ySize : ℤ
  geotransform : Option GeoTransform
  projection : String
  gcpProjection : String
  gcps : List GCP
  metadata : Metadata
  pixels : List ℤ
  deriving DecidableEq

/-- Contents of a file on disk: a raster the engine can open, a
georeference JSON document, or some other byte payload. -/
inductive FileData where
  | raster (r : Raster) : FileData
  | georefJson (d : GeorefData) : FileData
  | plain (bytes : List ℤ) : FileData
  deriving DecidableEq

/-- A flat filesystem: a partial map from path strings to file contents. -/
def FS : Type := String → Option FileData

/-- Existence check, `os.path.isfile`. -/
def FS.isfile (fs : FS) (p : String) : Bool := (fs p).isSome

/-- Writing (or overwriting) the file at path `p`. -/
def FS.set (fs : FS) (p : String) (d : FileData) : FS :=
  fun q => if q = p then some d else fs q

/-- Opening a dataset, `gdal.Open` (read-only or update): succeeds iff the path holds a
raster. -/
def FS.openRaster (fs : FS) (p : String) : Option Raster :=
  match fs p with
  | some (FileData.raster r) => some r
  | _ => none

/-- Parsing `json.load` on the file at `p`: succeeds iff the path holds a
georeference JSON document. -/
def FS.readJson (fs : FS) (p : String) : Option GeorefData :=
  match fs p with
  | some (FileData.georefJson d) => some d
  | _ => none

/-- Typed failures of the extractor/injector, mirroring the exceptions of
geotiff_tool.py: `FileNotFoundError` for a missing input path,
`RuntimeError` when `gdal.Open` returns `None`, `ValueError` for a
mismatched interchange format tag (`UnsupportedFormatError` in the error
taxonomy of the spec), `json.JSONDecodeError` for an unparsable
georeference file, `shutil.SameFileError` when `copy2` is given identical source and
destination. -/
inductive GeoErr where
  | fileNotFound (path : String) : GeoErr
  | openFailed : GeoErr
  | unsupportedFormat : GeoErr
  | jsonDecodeFail : GeoErr
  | sameFile : GeoErr
  deriving DecidableEq, Repr

/-- The record built by `_extract_georef_data` (geotiff_tool.py lines
783-804) from an opened dataset: format tag, basename, raster size,
nullable geotransform, projection strings, verbatim ordered GCPs and the
metadata mapping. -/
def _extract_georef_record (input_file : String) (r : Raster) : GeorefData :=
  { format := some georefFormatTag
    source_file := input_file
    raster_size := (r.xSize, r.ySize)
    geotransform := r.geotransform
    projection_wkt := r.projection
    gcp_projection_wkt := r.gcpProjection
    gcps := r.gcps
    metadata := r.metadata }

/-- Embedding of `_extract_georef_data` (geotiff_tool.py lines 762-806):
fail if the path is missing, fail if GDAL cannot open it as a raster,
otherwise build the interchange record. -/
def _extract_georef_data (fs : FS) (input_file : String) : Except GeoErr GeorefData :=
  if fs.isfile input_file then
    match fs.openRaster input_file with
    | some r => Except.ok (_extract_georef_record input_file r)
    | none => Except.error GeoErr.openFailed
  else
    Except.error (GeoErr.fileNotFound input_file)

/-- Embedding of `_write_georef_json` (geotiff_tool.py lines 808-814):
serialize the record to the output path. -/
def _write_georef_json (fs : FS) (d : GeorefData) (output_file : String) : FS :=
  fs.set output_file (FileData.georefJson d)

/-- The dataset mutations of `_apply_georef_from_json` performed on the
output copy (geotiff_tool.py lines 839-871): `SetGeoTransform` only when
the geotransform of the record is present, `SetProjection` only when the
projection string is non-empty, `SetGCPs` (always paired with the GCP
projection string) only when the GCP list is non-empty, and never
`SetMetadata` (the write-back is commented out by policy). -/
def applyRecordToRaster (d : GeorefData) (r : Raster) : Raster :=
  let r1 := match d.geotransform with
    | some gt => { r with geotransform := some gt }
    | none => r
  let r2 := if d.projection_wkt ≠ "" then { r1 with projection := d.projection_wkt } else r1
  if d.gcps ≠ [] then { r2 with gcps := d.gcps, gcpProjection := d.gcp_projection_wkt } else r2

/-- Embedding of `_apply_georef_from_json` (geotiff_tool.py lines
816-873).  The result is the optional error together with the filesystem
state after the call, so partial effects are observable: the existence
checks, JSON parse and format gate happen before the copy; then the
target is duplicated to the output path (`shutil.copy2`, which raises
`SameFileError` when the two paths coincide, before writing anything) and
only the copy is opened in update mode and mutated. -/
def _apply_georef_from_json (fs : FS) (georef_file edited_file output_file : String) :
    Option GeoErr × FS :=
  if ¬ fs.isfile georef_file then (some (GeoErr.fileNotFound georef_file), fs)
  else if ¬ fs.isfile edited_file then (some (GeoErr.fileNotFound edited_file), fs)
  else
    match fs.readJson georef_file with
    | none => (some GeoErr.jsonDecodeFail, fs)
    | some d =>
      if d.format ≠ some georefFormatTag then (some GeoErr.unsupportedFormat, fs)
      else if output_file = edited_file then (some GeoErr.sameFile, fs)
      else
        match fs edited_file with
        | none => (some (GeoErr.fileNotFound edited_file), fs)
        | some fd =>
          let fs1 := fs.set output_file fd
          match fs1.openRaster output_file with
          | none => (some GeoErr.openFailed, fs1)
          | some r => (none, fs1.set output_file (FileData.raster (applyRecordToRaster d r)))

/-- Reading a path other than the one just written sees the old state. -/
theorem fs_set_ne (fs : FS) (p q : String) (d : FileData) (h : q ≠ p) :
    FS.set fs p d q = fs q := if_neg h

/-- Reading back the path just written sees the new contents. -/
theorem fs_set_same (fs : FS) (p : String) (d : FileData) :
    FS.set fs p d p = some d := if_pos rfl

/-- Claim C5: an injection call never changes the file at the target
(edited) path, whatever the record and rasters involved: the injector
only ever writes to the output path, and when the output path coincides
with the target path `shutil.copy2` fails with `SameFileError` before
writing anything. -/
theorem injector_never_mutates_target (fs : FS) (georef_file edited_file output_file : String) :
    (_apply_georef_from_json fs georef_file edited_file output_file).2 edited_file
      = fs edited_file := by
  unfold _apply_georef_from_json
  split
  · rfl
  split
  · rfl
  split
  · rfl
  split
  · rfl
  split
  · rfl
  rename_i hout
  split
  · rfl
  rename_i fd hfd
  dsimp only
  split
  · exact fs_set_ne fs output_file edited_file fd (Ne.symm hout)
  · dsimp only
    rw [fs_set_ne, fs_set_ne] <;> exact Ne.symm hout

/-- Claim C4: injecting a record whose format tag is absent or differs
from the fixed interchange identifier fails with the unsupported-format
error (`ValueError` in the code, `UnsupportedFormatError` in the error
taxonomy of the spec) and returns the filesystem unchanged — in particular no output
file is produced, since the gate fires before the copy step. -/
theorem injector_format_gate (fs : FS) (georef_file edited_file output_file : String)
    (d : GeorefData)
    (hj : fs georef_file = some (FileData.georefJson d))
    (he : fs.isfile edited_file = true)
    (hfmt : d.format ≠ some georefFormatTag) :
    _apply_georef_from_json fs georef_file edited_file output_file
      = (some GeoErr.unsupportedFormat, fs) := by
  have hjf : fs.isfile georef_file = true := by simp [FS.isfile, hj]
  have hread : fs.readJson georef_file = some d := by simp [FS.readJson, hj]
  simp [_apply_georef_from_json, hjf, he, hread, hfmt]

/-- Raster used by the C4 witness: a plain georeferenced target. -/
def gateRaster : Raster :=
  { xSize := 4, ySize := 3, geotransform := some ⟨0, 1, 0, 0, 0, -1⟩,
    projection := "TARGET_SRS", gcpProjection := "", gcps := [],
    metadata := [("AREA_OR_POINT", "Area")], pixels := [7, 8, 9] }

/-- Record used by the C4 witness: its format tag is not the interchange
identifier. -/
def gateBadRecord : GeorefData :=
  { format := some "some_other_format", source_file := "x.tif", raster_size := (4, 3),
    geotransform := none, projection_wkt := "", gcp_projection_wkt := "",
    gcps := [], metadata := [] }

/-- Filesystem used by the C4 witness. -/
def gateFS : FS := fun p =>
  match p with
  | "georef.json" => some (FileData.georefJson gateBadRecord)
  | "edited.tif" => some (FileData.raster gateRaster)
  | _ => none

/-- Witness for C4: a concrete injection call with a mismatched format
tag fails closed and leaves the filesystem untouched. -/
theorem injector_format_gate_witness :
    _apply_georef_from_json gateFS "georef.json" "edited.tif" "out.tif"
      = (some GeoErr.unsupportedFormat, gateFS) :=
  injector_format_gate gateFS "georef.json" "edited.tif" "out.tif" gateBadRecord
    rfl rfl (by decide)

/-- Claim C6: a successful injection writes the geotransform of the record to
the output copy iff it is present, the projection iff it is non-empty,
the GCP list (paired with the GCP projection string, possibly empty) iff
the list is non-empty, and never the metadata of the record; the size
and pixel payload of the copy are those of the target. -/
theorem injector_conditional_writes (fs : FS) (georef_file edited_file output_file : String)
    (d : GeorefData) (B : Raster)
    (hj : fs georef_file = some (FileData.georefJson d))
    (he : fs edited_file = some (FileData.raster B))
    (hfmt : d.format = some georefFormatTag)
    (hne : output_file ≠ edited_file) :
    _apply_georef_from_json fs georef_file edited_file output_file
      = (none, (fs.set output_file (FileData.raster B)).set output_file
          (FileData.raster (applyRecordToRaster d B))) ∧
    (applyRecordToRaster d B).geotransform
      = (if d.geotransform.isSome then d.geotransform else B.geotransform) ∧
    (applyRecordToRaster d B).projection
      = (if d.projection_wkt ≠ "" then d.projection_wkt else B.projection) ∧
    (applyRecordToRaster d B).gcps = (if d.gcps ≠ [] then d.gcps else B.gcps) ∧
    (applyRecordToRaster d B).gcpProjection
      = (if d.gcps ≠ [] then d.gcp_projection_wkt else B.gcpProjection) ∧
    (applyRecordToRaster d B).metadata = B.metadata ∧
    (applyRecordToRaster d B).pixels = B.pixels ∧
    (applyRecordToRaster d B).xSize = B.xSize ∧
    (applyRecordToRaster d B).ySize = B.ySize := by
  have hjf : fs.isfile georef_file = true := by simp [FS.isfile, hj]
  have hef : fs.isfile edited_file = true := by simp [FS.isfile, he]
  have hread : fs.readJson georef_file = some d := by simp [FS.readJson, hj]
  have hopen : (fs.set output_file (FileData.raster B)).openRaster output_file
      = some B := by simp [FS.openRaster, fs_set_same]
  refine ⟨?_, ?_⟩
  · simp [_apply_georef_from_json, hjf, hef, hread, hfmt, hne, he, hopen]
  · cases hgt : d.geotransform <;>
      by_cases hp : d.projection_wkt = "" <;>
      by_cases hg : d.gcps = [] <;>
      simp [applyRecordToRaster, hgt, hp, hg]

/-- Record used by the C6 witness: accepted format, all georeference
fields present. -/
def cwRecord : GeorefData :=
  { format := some georefFormatTag, source_file := "src.tif", raster_size := (8, 6),
    geotransform := some ⟨10, 1, 0, 20, 0, -1⟩, projection_wkt := "REC_SRS",
    gcp_projection_wkt := "REC_GCP_SRS",
    gcps := [{ id := "g1", info := "corner", pixel := 1, line := 2, x := 3, y := 4, z := 5 }],
    metadata := [("K", "V")] }

/-- Target raster used by the C6 witness: carries no georeferencing of
its own. -/
def cwTarget : Raster :=
  { xSize := 8, ySize := 6, geotransform := none, projection := "",
    gcpProjection := "", gcps := [], metadata := [("T", "W")], pixels := [1, 2] }

/-- Filesystem used by the C6 witness. -/
def cwFS : FS := fun p =>
  match p with
  | "rec.json" => some (FileData.georefJson cwRecord)
  | "target.tif" => some (FileData.raster cwTarget)
  | _ => none

/-- Witness for C6: a concrete successful injection, with every
conditional-write equation instantiated. -/
theorem injector_conditional_writes_witness :
    _apply_georef_from_json cwFS "rec.json" "target.tif" "out.tif"
      = (none, (cwFS.set "out.tif" (FileData.raster cwTarget)).set "out.tif"
          (FileData.raster (applyRecordToRaster cwRecord cwTarget))) ∧
    (applyRecordToRaster cwRecord cwTarget).geotransform
      = (if cwRecord.geotransform.isSome then cwRecord.geotransform
         else cwTarget.geotransform) ∧
    (applyRecordToRaster cwRecord cwTarget).projection
      = (if cwRecord.projection_wkt ≠ "" then cwRecord.projection_wkt
         else cwTarget.projection) ∧
    (applyRecordToRaster cwRecord cwTarget).gcps
      = (if cwRecord.gcps ≠ [] then cwRecord.gcps else cwTarget.gcps) ∧
    (applyRecordToRaster cwRecord cwTarget).gcpProjection
      = (if cwRecord.gcps ≠ [] then cwRecord.gcp_projection_wkt
         else cwTarget.gcpProjection) ∧
    (applyRecordToRaster cwRecord cwTarget).metadata = cwTarget.metadata ∧
    (applyRecordToRaster cwRecord cwTarget).pixels = cwTarget.pixels ∧
    (applyRecordToRaster cwRecord cwTarget).xSize = cwTarget.xSize ∧
    (applyRecordToRaster cwRecord cwTarget).ySize = cwTarget.ySize :=
  injector_conditional_writes cwFS "rec.json" "target.tif" "out.tif" cwRecord cwTarget
    rfl rfl rfl (by decide)

/-- Claim C1 (amended): the extract-inject-re-extract round trip
reproduces the geotransform, projection string, GCP list and
GCP-projection string of A, provided the geotransform of A is present, its
projection string is non-empty and its GCP list is non-empty (so that the
injector writes all four fields over whatever the target held; metadata
is excluded).  The unrestricted claim is refuted by
`roundtrip_counterexample`. -/
theorem roundtrip_extract_inject_extract (fs : FS) (pa pb pj po : String) (A B : Raster)
    (ha : fs pa = some (FileData.raster A))
    (hb : fs pb = some (FileData.raster B))
    (hAgt : A.geotransform.isSome)
    (hAproj : A.projection ≠ "")
    (hAgcps : A.gcps ≠ [])
    (hjb : pj ≠ pb)
    (hob : po ≠ pb) :
    _extract_georef_data fs pa = Except.ok (_extract_georef_record pa A) ∧
    (_apply_georef_from_json (_write_georef_json fs (_extract_georef_record pa A) pj)
        pj pb po).1 = none ∧
    Except.map (fun d => (d.geotransform, d.projection_wkt, d.gcps, d.gcp_projection_wkt))
        (_extract_georef_data
          (_apply_georef_from_json (_write_georef_json fs (_extract_georef_record pa A) pj)
            pj pb po).2 po)
      = Except.ok ((_extract_georef_record pa A).geotransform,
          (_extract_georef_record pa A).projection_wkt,
          (_extract_georef_record pa A).gcps,
          (_extract_georef_record pa A).gcp_projection_wkt) := by
  obtain ⟨gA, hgA⟩ := Option.isSome_iff_exists.mp hAgt
  refine ⟨?_, ?_, ?_⟩
  · simp [_extract_georef_data, FS.isfile, ha, FS.openRaster]
  all_goals
    simp [_apply_georef_from_json, _write_georef_json, _extract_georef_data,
      _extract_georef_record, FS.isfile, FS.readJson, FS.openRaster, FS.set,
      Ne.symm hjb, Ne.symm hob, hob, ha, hb, hAproj, hAgcps, hgA,
      applyRecordToRaster, Except.map]

instance {ε α : Type} [DecidableEq ε] [DecidableEq α] : DecidableEq (Except ε α) := fun a b =>
  match a, b with
  | Except.ok x, Except.ok y =>
    if h : x = y then isTrue (by rw [h]) else isFalse (fun hc => h (Except.ok.inj hc))
  | Except.error x, Except.error y =>
    if h : x = y then isTrue (by rw [h]) else isFalse (fun hc => h (Except.error.inj hc))
  | Except.ok _, Except.error _ => isFalse (fun hc => Except.noConfusion hc)
  | Except.error _, Except.ok _ => isFalse (fun hc => Except.noConfusion hc)

/-- Source raster for the C1 witness: geotransform present, non-empty
projection, non-empty GCP list. -/
def rtFullA : Raster :=
  { xSize := 3, ySize := 2, geotransform := some ⟨500, 5, 0, 600, 0, -5⟩,
    projection := "A_SRS", gcpProjection := "A_GCP_SRS",
    gcps := [{ id := "p", info := "q", pixel := 0, line := 1, x := 2, y := 3, z := 4 }],
    metadata := [("M", "N")], pixels := [4, 5, 6] }

/-- Unrelated target raster for the C1 witness, with its own conflicting
georeferencing. -/
def rtTargetB : Raster :=
  { xSize := 9, ySize := 9, geotransform := some ⟨1, 1, 0, 1, 0, 1⟩,
    projection := "B_SRS", gcpProjection := "B_GCP_SRS", gcps := [],
    metadata := [], pixels := [0] }

/-- Filesystem for the C1 witness. -/
def rtWitnessFS : FS := fun p =>
  match p with
  | "a.tif" => some (FileData.raster rtFullA)
  | "b.tif" => some (FileData.raster rtTargetB)
  | _ => none

/-- Witness for the amended C1: a concrete extract-inject-re-extract run
reproducing all four georeference fields of A. -/
theorem roundtrip_extract_inject_extract_witness :
    _extract_georef_data rtWitnessFS "a.tif"
      = Except.ok (_extract_georef_record "a.tif" rtFullA) ∧
    (_apply_georef_from_json
        (_write_georef_json rtWitnessFS (_extract_georef_record "a.tif" rtFullA) "a.json")
        "a.json" "b.tif" "out.tif").1 = none ∧
    Except.map (fun d => (d.geotransform, d.projection_wkt, d.gcps, d.gcp_projection_wkt))
        (_extract_georef_data
          (_apply_georef_from_json
            (_write_georef_json rtWitnessFS (_extract_georef_record "a.tif" rtFullA) "a.json")
            "a.json" "b.tif" "out.tif").2 "out.tif")
      = Except.ok ((_extract_georef_record "a.tif" rtFullA).geotransform,
          (_extract_georef_record "a.tif" rtFullA).projection_wkt,
          (_extract_georef_record "a.tif" rtFullA).gcps,
          (_extract_georef_record "a.tif" rtFullA).gcp_projection_wkt) :=
  roundtrip_extract_inject_extract rtWitnessFS "a.tif" "b.tif" "a.json" "out.tif"
    rtFullA rtTargetB rfl rfl rfl (by decide) (by decide) (by decide) (by decide)

/-- Source raster refuting the unrestricted C1: no geotransform, empty
projection, no GCPs. -/
def rtEmptyA : Raster :=
  { xSize := 2, ySize := 2, geotransform := none, projection := "",
    gcpProjection := "", gcps := [], metadata := [], pixels := [1, 2, 3, 4] }

/-- Georeferenced target raster refuting the unrestricted C1. -/
def rtGeoB : Raster :=
  { xSize := 5, ySize := 4, geotransform := some ⟨100, 2, 0, 200, 0, -2⟩,
    projection := "B_SRS", gcpProjection := "B_GCP_SRS",
    gcps := [{ id := "1", info := "", pixel := 0, line := 0, x := 10, y := 20, z := 0 }],
    metadata := [], pixels := [9, 9] }

/-- Filesystem for the C1 counterexample. -/
def rtCexFS : FS := fun p =>
  match p with
  | "a.tif" => some (FileData.raster rtEmptyA)
  | "b.tif" => some (FileData.raster rtGeoB)
  | _ => none

/-- Counterexample to C1 as stated: with raster A carrying no
geotransform, an empty projection and no GCPs, and target raster B
carrying its own georeferencing, the injector leaves the fields of B in
place on the output copy, so the re-extracted record carries the
georeferencing of B, not that of A. -/
theorem roundtrip_counterexample :
    _extract_georef_data rtCexFS "a.tif"
      = Except.ok (_extract_georef_record "a.tif" rtEmptyA) ∧
    (_apply_georef_from_json
        (_write_georef_json rtCexFS (_extract_georef_record "a.tif" rtEmptyA) "a.json")
        "a.json" "b.tif" "out.tif").1 = none ∧
    Except.map (fun d => (d.geotransform, d.projection_wkt, d.gcps, d.gcp_projection_wkt))
        (_extract_georef_data
          (_apply_georef_from_json
            (_write_georef_json rtCexFS (_extract_georef_record "a.tif" rtEmptyA) "a.json")
            "a.json" "b.tif" "out.tif").2 "out.tif")
      = Except.ok (some ⟨100, 2, 0, 200, 0, -2⟩, "B_SRS",
          [{ id := "1", info := "", pixel := 0, line := 0, x := 10, y := 20, z := 0 }],
          "B_GCP_SRS") ∧
    ¬ Except.map (fun d => (d.geotransform, d.projection_wkt, d.gcps, d.gcp_projection_wkt))
        (_extract_georef_data
          (_apply_georef_from_json
            (_write_georef_json rtCexFS (_extract_georef_record "a.tif" rtEmptyA) "a.json")
            "a.json" "b.tif" "out.tif").2 "out.tif")
      = Except.ok ((_extract_georef_record "a.tif" rtEmptyA).geotransform,
          (_extract_georef_record "a.tif" rtEmptyA).projection_wkt,
          (_extract_georef_record "a.tif" rtEmptyA).gcps,
          (_extract_georef_record "a.tif" rtEmptyA).gcp_projection_wkt) := by
  decide

/-- Counterexample to C2 as stated: for the transformed pair `(100, 50)`
the magnitude of the FIRST component exceeds 90 while that of the second
does not,
yet the code leaves the pair unchanged (it does not swap to `(50, 100)`);
conversely for the mirrored pair `(50, 100)`, where the claim predicts
no swap, the code swaps. -/
theorem axis_order_fixup_counterexample :
    (90 < |(100 : ℚ)| ∧ |(50 : ℚ)| ≤ 90) ∧
    axis_order_fixup (100, 50) = (100, 50) ∧
    axis_order_fixup (100, 50) ≠ (50, 100) ∧
    axis_order_fixup (50, 100) = (100, 50) := by
  decide

/-- Claim C2 (amended): the defensive correction swaps the two components
exactly when the magnitude of the SECOND component exceeds 90 and the
magnitude of the first does not (the code binds the first transformed
component to the longitude and the second to the latitude, and tests the
latitude for being out of range); in every other case — neither
exceeding, both exceeding, or only the first exceeding — the pair is
left unchanged. -/
theorem axis_order_fixup_swap_iff (p : ℚ × ℚ) :
    (90 < |p.2| ∧ |p.1| ≤ 90 → axis_order_fixup p = (p.2, p.1)) ∧
    (¬ (90 < |p.2| ∧ |p.1| ≤ 90) → axis_order_fixup p = p) := by
  constructor <;> intro h <;> simp [axis_order_fixup, h]

/-- Witness for the amended C2: the pair `(50, 100)` — longitude in
range, latitude out of range — is swapped to `(100, 50)`. -/
theorem axis_order_fixup_swap_iff_witness :
    axis_order_fixup (50, 100) = (100, 50) :=
  (axis_order_fixup_swap_iff (50, 100)).1 (by decide)

/-- Claim C10: the tiling step rejects `min_zoom < 0`, `max_zoom < 0` and
`max_zoom < min_zoom` with a `ValueError` before creating the output
directory or invoking gdal2tiles, and accepts every range with
`0 ≤ min_zoom ≤ max_zoom`, creating the directory and running the tool
with zoom argument `"min-max"`. -/
theorem generate_xyz_tiles_validation (min_zoom max_zoom : ℤ) :
    (min_zoom < 0 ∨ max_zoom < 0 ∨ max_zoom < min_zoom →
      generate_xyz_tiles min_zoom max_zoom = Except.error zoomRangeErrorMsg) ∧
    (0 ≤ min_zoom ∧ min_zoom ≤ max_zoom →
      generate_xyz_tiles min_zoom max_zoom
        = Except.ok [TilesEffect.mkdirOutDir,
            TilesEffect.runGdal2Tiles (toString min_zoom ++ "-" ++ toString max_zoom)]) := by
  constructor
  · intro h
    unfold generate_xyz_tiles
    rw [if_pos h]
  · rintro ⟨h0, hle⟩
    have hn : ¬ (min_zoom < 0 ∨ max_zoom < 0 ∨ max_zoom < min_zoom) := by omega
    unfold generate_xyz_tiles
    rw [if_neg hn]

/-- Witness for C10: the range `2..5` passes validation and reaches the
tool; the range `-1..5` is rejected with the `ValueError` message. -/
theorem generate_xyz_tiles_validation_witness :
    generate_xyz_tiles 2 5
      = Except.ok [TilesEffect.mkdirOutDir,
          TilesEffect.runGdal2Tiles (toString (2 : ℤ) ++ "-" ++ toString (5 : ℤ))] ∧
    generate_xyz_tiles (-1) 5 = Except.error zoomRangeErrorMsg :=
  ⟨(generate_xyz_tiles_validation 2 5).2 (by decide),
   (generate_xyz_tiles_validation (-1) 5).1 (by decide)⟩

/-- An entry of the output directory as seen by `Path.iterdir`: its name,
whether it is a directory, and (when it is one) the names of its own
subdirectories one level down. -/
structure DirEntry where
  name : String
  isDir : Bool
  subdirNames : List String
  deriving DecidableEq, Repr

/-- The output directory handed to the tile layout locator: its entries
in iteration order. -/
structure OutDir where
  entries : List DirEntry
  deriving DecidableEq, Repr

/-- Probe `(out_dir / n).is_dir()`. -/
def OutDir.hasDirChild (d : OutDir) (n : String) : Bool :=
  d.entries.any fun e => e.isDir && e.name == n

/-- Probe `(child / n).is_dir()` for a child entry. -/
def DirEntry.hasSubdir (e : DirEntry) (n : String) : Bool :=
  e.subdirNames.any fun m => m == n

/-- Embedding of `_find_tiles_root` (backend.py lines 502-521): the fast
path probes `out_dir/str(z)` for `z` in `0..30`; the fallback walks the
entries in iteration order and returns the first child directory that
contains such a numeric zoom directory; the final fallback is the output
root itself.  `none` stands for the given output directory, `some n` for
the child named `n`. -/
def _find_tiles_root (d : OutDir) : Option String :=
  if (List.range 31).any (fun z => d.hasDirChild (toString z)) then none
  else
    match d.entries.find? (fun e =>
        e.isDir && (List.range 31).any fun z => e.hasSubdir (toString z)) with
    | some e => some e.name
    | none => none

/-- Embedding of the template construction in
`guess_xyz_tiles_url_template` (backend.py lines 483-499): prefix `"."`
when the root is the output directory itself, else `"./<child>"`,
followed by the `{z}/{x}/{y}.png` placeholder path.  The second output
of the function (the diagnostic sample tile from `_find_any_png_under`) is
not involved in the root/template behaviour and is not modelled. -/
def guess_xyz_tiles_url_template (d : OutDir) : String :=
  match _find_tiles_root d with
  | none => "./" ++ "{z}/{x}/{y}.png"
  | some n => "./" ++ n ++ "/" ++ "{z}/{x}/{y}.png"

/-- The first hit of a left-to-right search is the head of the filtered
list. -/
theorem find?_eq_head?_filter {α : Type} (p : α → Bool) (l : List α) :
    l.find? p = (l.filter p).head? := by
  induction l with
  | nil => rfl
  | cons a t ih =>
    by_cases h : p a
    · rw [List.find?_cons_of_pos _ h, List.filter_cons_of_pos h, List.head?_cons]
    · rw [List.find?_cons_of_neg _ h, List.filter_cons_of_neg h, ih]

/-- Claim C9: if a subdirectory named `"0"`..`"30"` exists directly under
the output directory, the root is the directory itself with the plain
template; otherwise the first immediate child directory containing such a
numeric subdirectory becomes the root, with the template routed through
it; otherwise the root defaults to the directory itself with the plain
template. -/
theorem tiles_root_and_template (d : OutDir) :
    ((∃ z ∈ List.range 31, d.hasDirChild (toString z) = true) →
      _find_tiles_root d = none ∧
      guess_xyz_tiles_url_template d = "./" ++ "{z}/{x}/{y}.png") ∧
    ((¬ ∃ z ∈ List.range 31, d.hasDirChild (toString z) = true) →
      ∀ e : DirEntry,
        (d.entries.filter fun e =>
            e.isDir && (List.range 31).any fun z => e.hasSubdir (toString z)).head? = some e →
        _find_tiles_root d = some e.name ∧
        guess_xyz_tiles_url_template d = "./" ++ e.name ++ "/" ++ "{z}/{x}/{y}.png") ∧
    ((¬ ∃ z ∈ List.range 31, d.hasDirChild (toString z) = true) →
      (d.entries.filter fun e =>
          e.isDir && (List.range 31).any fun z => e.hasSubdir (toString z)) = [] →
      _find_tiles_root d = none ∧
      guess_xyz_tiles_url_template d = "./" ++ "{z}/{x}/{y}.png") := by
  have hany : ((List.range 31).any (fun z => d.hasDirChild (toString z)) = true)
      ↔ ∃ z ∈ List.range 31, d.hasDirChild (toString z) = true := by
    simp [List.any_eq_true]
  refine ⟨?_, ?_, ?_⟩
  · intro h
    have hb := hany.mpr h
    have hroot : _find_tiles_root d = none := by
      unfold _find_tiles_root
      rw [if_pos hb]
    exact ⟨hroot, by unfold guess_xyz_tiles_url_template; rw [hroot]⟩
  · intro h e hhead
    have hb : ¬ ((List.range 31).any (fun z => d.hasDirChild (toString z)) = true) :=
      fun hc => h (hany.mp hc)
    have hroot : _find_tiles_root d = some e.name := by
      unfold _find_tiles_root
      rw [if_neg hb, find?_eq_head?_filter, hhead]
    exact ⟨hroot, by unfold guess_xyz_tiles_url_template; rw [hroot]⟩
  · intro h hfilter
    have hb : ¬ ((List.range 31).any (fun z => d.hasDirChild (toString z)) = true) :=
      fun hc => h (hany.mp hc)
    have hroot : _find_tiles_root d = none := by
      unfold _find_tiles_root
      rw [if_neg hb, find?_eq_head?_filter, hfilter]
      rfl
    exact ⟨hroot, by unfold guess_xyz_tiles_url_template; rw [hroot]⟩

/-- Output directory with zoom directories directly at the root. -/
def tilesDirectDir : OutDir :=
  { entries := [{ name := "0", isDir := true, subdirNames := ["0"] },
                { name := "1", isDir := true, subdirNames := [] }] }

/-- Output directory whose zoom directories live one level down, under a
child named "tiles". -/
def tilesNestedDir : OutDir :=
  { entries := [{ name := "readme.txt", isDir := false, subdirNames := [] },
                { name := "tiles", isDir := true, subdirNames := ["0", "1", "2"] }] }

/-- Witness for C9: the direct layout keeps the output root and the plain
template; the nested layout picks the child "tiles" and routes the
template through it. -/
theorem tiles_root_and_template_witness :
    (_find_tiles_root tilesDirectDir = none ∧
      guess_xyz_tiles_url_template tilesDirectDir = "./" ++ "{z}/{x}/{y}.png") ∧
    (_find_tiles_root tilesNestedDir = some "tiles" ∧
      guess_xyz_tiles_url_template tilesNestedDir
        = "./" ++ "tiles" ++ "/" ++ "{z}/{x}/{y}.png") :=
  ⟨(tiles_root_and_template tilesDirectDir).1 (by decide),
   (tiles_root_and_template tilesNestedDir).2.1 (by decide)
     { name := "tiles", isDir := true, subdirNames := ["0", "1", "2"] } (by decide)⟩

end GeoMosaic
